import Mathlib

/-!
Verification of the dual-warehouse clinical pipeline scripts.

This file gives a shallow embedding of the two core components of the
repository and proves the specified properties about them:

* `src/python/dashboard_simulator.py` — the dashboard load generator
  (`execute_query`, `simulate_single_dashboard_load`,
  `simulate_concurrent_dashboards`) and the latency reporter
  (`generate_performance_report`, `percentile`).
* `src/python/synthetic_data_generator.py` — the synthetic clinical record
  generator (`generate_patients`, `generate_encounters`,
  `generate_lab_results`).

Modelling conventions:

* Python floats are modelled as `ℚ`; `round(x, 2)` is `round2`.
* Timestamps are modelled as `ℤ` (hours); `timedelta(days = d)` adds `24 * d`.
* The Snowflake cursor is an external collaborator: a query execution is an
  `Except String (List Row)` value (raised exception or fetched rows), and the
  two `time.time()` readings around a call are explicit `ℚ` parameters.
* Randomness: all seeded generators (`random`, `np.random`, `Faker`, seeded at
  module init) are modelled as one abstract stream `rnd : ℕ → ℕ` consumed one
  draw at a time; the value distribution (Poisson, weighted choice, uniform) is
  abstracted into the draw, keeping only the range and consumption structure
  the code imposes.  `uuid.uuid4` reads from OS entropy, which the seeds do not
  control, so it is a second, independent stream `ent : ℕ → ℕ`; `datetime.now`
  is an explicit clock parameter `now`.
* The thread pool (`ThreadPoolExecutor` + `as_completed`) is modelled by
  collecting each iteration's session results in submission order; the counting
  and uniqueness properties proved about it are insensitive to the completion
  order.
-/

/-- A fetched row, as returned by the cursor collaborator. -/
abbrev Row := List String

/-- Python `round(x, 2)`: round to the nearest multiple of 1/100. -/
def round2 (q : ℚ) : ℚ := ((round (100 * q) : ℤ) : ℚ) / 100

/-- The dictionary built by `DashboardSimulator.execute_query` (the `query_id`
key, an opaque vendor handle, is omitted). -/
structure QueryResult where
  query_name : String
  execution_time_ms : ℚ
  row_count : ℕ
  success : Bool
  error : Option String
deriving Repr, DecidableEq

/-- Whether a cursor call raised (the `except` branch is taken). -/
def callFailed (c : Except String (List Row)) : Bool :=
  match c with
  | .ok _ => false
  | .error _ => true

/-- The error message captured from a cursor call, if any. -/
def errOf (c : Except String (List Row)) : Option String :=
  match c with
  | .ok _ => none
  | .error e => some e

/-- The number of rows fetched by a cursor call (0 when it raised). -/
def rowsOf (c : Except String (List Row)) : ℕ :=
  match c with
  | .ok rows => rows.length
  | .error _ => 0

/-- `DashboardSimulator.execute_query`: runs one query on the cursor
collaborator, measuring wall-clock time from `start_time` (`t0`) to result
materialization (`t1`); an exception is caught and turned into a failure
record with the same timing measurement. -/
def execute_query (query_name : String) (call : Except String (List Row))
    (t0 t1 : ℚ) : QueryResult :=
  match call with
  | .ok results =>
    { query_name := query_name
      execution_time_ms := round2 ((t1 - t0) * 1000)
      row_count := results.length
      success := true
      error := none }
  | .error e =>
    { query_name := query_name
      execution_time_ms := round2 ((t1 - t0) * 1000)
      row_count := 0
      success := false
      error := some e }

/-- The three patient-specific dashboard queries issued by
`simulate_single_dashboard_load`. -/
def dashboardQueryNames : List String :=
  ["patient_summary", "recent_encounters", "recent_labs"]

/-- The stub execution collaborator: for each (query name, patient id) pair it
determines the cursor call's outcome and the two clock readings around it. -/
structure ExecBehavior where
  outcome : String → String → Except String (List Row)
  startTime : String → String → ℚ
  endTime : String → String → ℚ

/-- The dictionary returned by `simulate_single_dashboard_load`. -/
structure DashboardLoadResult where
  patient_id : String
  total_load_time_ms : ℚ
  query_results : List QueryResult
deriving Repr, DecidableEq

/-- `DashboardSimulator.simulate_single_dashboard_load`: one session executes
the three patient-specific queries sequentially and sums their measured
times. -/
def simulate_single_dashboard_load (b : ExecBehavior) (patient_id : String) :
    DashboardLoadResult :=
  let dashboard_results := dashboardQueryNames.map fun query_name =>
    execute_query query_name (b.outcome query_name patient_id)
      (b.startTime query_name patient_id) (b.endTime query_name patient_id)
  let total_time := (dashboard_results.map fun r => r.execution_time_ms).sum
  { patient_id := patient_id
    total_load_time_ms := round2 total_time
    query_results := dashboard_results }

/-- `DashboardSimulator.simulate_concurrent_dashboards`: `num_iterations`
sequential batches; each batch takes the next `num_concurrent` patient ids and
runs one session per id on the worker pool.  Returns the session results
(`all_results`) and the flat shared collection `self.query_results`. -/
def simulate_concurrent_dashboards (b : ExecBehavior)
    (patient_ids : List String) (num_concurrent num_iterations : ℕ) :
    List DashboardLoadResult × List QueryResult :=
  let all_results := (List.range num_iterations).flatMap fun iteration =>
    ((patient_ids.drop (iteration * num_concurrent)).take num_concurrent).map
      (simulate_single_dashboard_load b)
  (all_results, all_results.flatMap fun r => r.query_results)

/-! ### Facts about `round2` -/

/-- A rational is a whole number of hundredths. -/
def IsCenti (q : ℚ) : Prop := ∃ n : ℤ, q = (n : ℚ) / 100

theorem isCenti_round2 (q : ℚ) : IsCenti (round2 q) :=
  ⟨round (100 * q), rfl⟩

theorem isCenti_add {a b : ℚ} (ha : IsCenti a) (hb : IsCenti b) :
    IsCenti (a + b) := by
  obtain ⟨n, rfl⟩ := ha
  obtain ⟨m, rfl⟩ := hb
  exact ⟨n + m, by push_cast; ring⟩

theorem isCenti_zero : IsCenti 0 := ⟨0, by norm_num⟩

theorem isCenti_sum {l : List ℚ} (h : ∀ x ∈ l, IsCenti x) : IsCenti l.sum := by
  induction l with
  | nil => simpa using isCenti_zero
  | cons a t ih =>
    rw [List.sum_cons]
    exact isCenti_add (h a (List.mem_cons_self a t))
      (ih fun x hx => h x (List.mem_cons_of_mem a hx))

theorem round2_eq_self {q : ℚ} (h : IsCenti q) : round2 q = q := by
  obtain ⟨n, rfl⟩ := h
  unfold round2
  rw [mul_div_cancel₀ (n : ℚ) (by norm_num : (100 : ℚ) ≠ 0), round_intCast]

theorem round2_nonneg {q : ℚ} (h : 0 ≤ q) : 0 ≤ round2 q := by
  unfold round2
  have h0 : (0 : ℤ) ≤ round (100 * q) := by
    rw [round_eq]
    exact Int.le_floor.mpr (by push_cast; linarith)
  have : (0 : ℚ) ≤ ((round (100 * q) : ℤ) : ℚ) := by exact_mod_cast h0
  positivity

theorem execute_query_time (query_name : String)
    (call : Except String (List Row)) (t0 t1 : ℚ) :
    (execute_query query_name call t0 t1).execution_time_ms =
      round2 ((t1 - t0) * 1000) := by
  cases call <;> rfl

theorem execute_query_success (query_name : String)
    (call : Except String (List Row)) (t0 t1 : ℚ) :
    (execute_query query_name call t0 t1).success = !(callFailed call) := by
  cases call <;> rfl

/-! ### C3: query failures are captured, never propagated -/

/-- C3: `execute_query` never propagates the cursor's exception: it is a total
function into `QueryResult`.  On a raised call the result has `success=false`,
the caught error message, row count 0 and the measured wall-clock duration of
the failed attempt (non-negative when the clock is monotone); on a successful
call it has `success=true` and the fetched row count. -/
theorem execute_query_captures_failures (query_name : String)
    (call : Except String (List Row)) (t0 t1 : ℚ) (hclock : t0 ≤ t1) :
    (execute_query query_name call t0 t1).success = !(callFailed call) ∧
    (execute_query query_name call t0 t1).error = errOf call ∧
    (execute_query query_name call t0 t1).row_count = rowsOf call ∧
    (execute_query query_name call t0 t1).execution_time_ms =
      round2 ((t1 - t0) * 1000) ∧
    0 ≤ (execute_query query_name call t0 t1).execution_time_ms := by
  have h0 : (0 : ℚ) ≤ (t1 - t0) * 1000 :=
    mul_nonneg (sub_nonneg.mpr hclock) (by norm_num)
  refine ⟨execute_query_success _ _ _ _, ?_, ?_, execute_query_time _ _ _ _, ?_⟩
  · cases call <;> rfl
  · cases call <;> rfl
  · rw [execute_query_time]
    exact round2_nonneg h0

/-- Witness for C3 at a concrete failed call and a concrete successful call. -/
theorem execute_query_captures_failures_witness :
    (execute_query ("recent_labs") (Except.error ("connection lost")) 0 2).success
        = !(callFailed (Except.error ("connection lost"))) ∧
      (execute_query ("recent_labs") (Except.error ("connection lost")) 0 2).error
        = errOf (Except.error ("connection lost")) ∧
      (execute_query ("recent_labs") (Except.error ("connection lost")) 0 2).row_count
        = rowsOf (Except.error ("connection lost")) ∧
      (execute_query ("recent_labs") (Except.error ("connection lost")) 0 2).execution_time_ms
        = round2 ((2 - 0) * 1000) ∧
      0 ≤ (execute_query ("recent_labs") (Except.error ("connection lost")) 0 2).execution_time_ms :=
  execute_query_captures_failures ("recent_labs")
    (Except.error ("connection lost")) 0 2 (by norm_num)

/-! ### The latency reporter (`generate_performance_report`, `percentile`) -/

/-- `DashboardSimulator.percentile`: `sorted(data)[int(size * percentile / 100)]`.
Python `sorted` is ascending; `int` truncates, which on the non-negative
operands here is the floor, i.e. natural division.  An out-of-range index
raises `IndexError`, modelled by `none`. -/
def percentile (data : List ℚ) (p : ℕ) : Option ℚ :=
  (List.insertionSort (· ≤ ·) data)[data.length * p / 100]?

/-- Modelled from the spec: the nearest-rank percentile as §4.2 words it —
sort ascending, index `floor(N * p / 100)`, *clamp to the valid range*.  Kept
separate from `percentile` (the embedding of the code, which does not clamp)
so the two can be compared. -/
def percentileClampedSpec (data : List ℚ) (p : ℕ) : Option ℚ :=
  (List.insertionSort (· ≤ ·) data)[min (data.length * p / 100) (data.length - 1)]?

/-- `statistics.mean`. -/
def listMean (xs : List ℚ) : ℚ := xs.sum / (xs.length : ℚ)

/-- `statistics.median`: middle element of the ascending sort for odd length,
average of the two middle elements for even length. -/
def listMedian (xs : List ℚ) : ℚ :=
  let s := List.insertionSort (· ≤ ·) xs
  if xs.length % 2 = 1 then s.getD (xs.length / 2) 0
  else (s.getD (xs.length / 2 - 1) 0 + s.getD (xs.length / 2) 0) / 2

/-- Python `min` over a (in the report always non-empty) list. -/
def listMin (xs : List ℚ) : ℚ := (List.insertionSort (· ≤ ·) xs).headD 0

/-- Python `max` over a (in the report always non-empty) list. -/
def listMax (xs : List ℚ) : ℚ := (List.insertionSort (· ≤ ·) xs).getLastD 0

/-- `sum(1 for t in times if t < 100)`. -/
def countUnder100 (times : List ℚ) : ℕ := times.countP fun t => t < 100

/-- `(under_100ms / len(times)) * 100`. -/
def pctUnder100 (times : List ℚ) : ℚ :=
  ((countUnder100 times : ℕ) : ℚ) / ((times.length : ℕ) : ℚ) * 100

/-- `pandas.unique` on a column: the distinct values in order of first
occurrence.  `seen` accumulates the values already emitted. -/
def uniqueFirstAux (seen : List String) : List String → List String
  | [] => []
  | a :: l =>
    if a ∈ seen then uniqueFirstAux seen l
    else a :: uniqueFirstAux (a :: seen) l

/-- `successful_queries['query_name'].unique()`. -/
def uniqueFirst (l : List String) : List String := uniqueFirstAux [] l

/-- The per-query-name block printed by `generate_performance_report`. -/
structure QueryStats where
  query_name : String
  count : ℕ
  mean_ms : ℚ
  median_ms : ℚ
  min_ms : ℚ
  max_ms : ℚ
  p95_ms : ℚ
  p99_ms : ℚ
  pct_under_100ms : ℚ
  sla_met : Bool
deriving Repr, DecidableEq

/-- The overall latency distribution block of the report. -/
structure OverallStats where
  mean_ms : ℚ
  median_ms : ℚ
  p95_ms : ℚ
  p99_ms : ℚ
  pct_under_100ms : ℚ
  sla_met : Bool
deriving Repr, DecidableEq

/-- The whole report: totals, one block per query name, and the overall
block (absent when there is no successful query). -/
structure ReportBody where
  total_queries : ℕ
  successful_queries : ℕ
  failed_queries : ℕ
  per_query : List QueryStats
  overall : Option OverallStats
deriving Repr, DecidableEq

/-- One per-query-name block, computed from that name's successful latency
samples exactly as the report's inner loop does. -/
def statsFor (query_name : String) (times : List ℚ) : QueryStats :=
  { query_name := query_name
    count := times.length
    mean_ms := listMean times
    median_ms := listMedian times
    min_ms := listMin times
    max_ms := listMax times
    p95_ms := (percentile times 95).getD 0
    p99_ms := (percentile times 99).getD 0
    pct_under_100ms := pctUnder100 times
    sla_met := decide (pctUnder100 times ≥ 95) }

/-- The latency samples of one query name within the successful results. -/
def groupTimes (successful : List QueryResult) (query_name : String) : List ℚ :=
  (successful.filter fun r => r.query_name == query_name).map
    fun r => r.execution_time_ms

/-- `DashboardSimulator.generate_performance_report`: on an empty result
collection it prints "No query results to analyze" and returns early
(modelled by `none`); otherwise it reports totals over all results and
latency statistics over the successful ones only. -/
def generate_performance_report (query_results : List QueryResult) :
    Option ReportBody :=
  if query_results.isEmpty then none
  else
    let successful := query_results.filter fun r => r.success
    let names := uniqueFirst (successful.map fun r => r.query_name)
    let per_query := names.map fun n => statsFor n (groupTimes successful n)
    let overall :=
      if 0 < successful.length then
        let all_times := successful.map fun r => r.execution_time_ms
        some { mean_ms := listMean all_times
               median_ms := listMedian all_times
               p95_ms := (percentile all_times 95).getD 0
               p99_ms := (percentile all_times 99).getD 0
               pct_under_100ms := pctUnder100 all_times
               sla_met := decide (pctUnder100 all_times ≥ 95) }
      else none
    some { total_queries := query_results.length
           successful_queries := successful.length
           failed_queries := query_results.length - successful.length
           per_query := per_query
           overall := overall }

/-! ### C7: empty input is reported as "no data", not an error -/

/-- C7: on an empty collection of `QueryResult` the reporter takes the early
`return` after printing "No query results to analyze": it yields the explicit
no-data value `none` (and, being a total function, neither raises nor reaches
any of the divisions). -/
theorem empty_report_no_data : generate_performance_report [] = none := rfl

/-! ### C2: the percentile function -/

/-- C2 counterexample: the code does not clamp the index.  For the sample
`[10,20,30,40,50]` and `p = 100` the index is `5 * 100 / 100 = 5`, out of
range, so `sorted(data)[5]` raises `IndexError` (`none`), whereas the claimed
clamped nearest-rank returns the last element `50`. -/
theorem percentile_unclamped_counterexample :
    percentile [10, 20, 30, 40, 50] 100 = none ∧
    percentileClampedSpec [10, 20, 30, 40, 50] 100 = some 50 := by
  constructor <;> decide

/-- C2 amended: for a non-empty sample and `0 ≤ p < 100`, the index
`floor(N * p / 100)` is already inside the valid range (so no clamping is
needed or performed there) and the function returns the element at that index
of the ascending sort of the values; in particular `P95 = 50` and `P50 = 30`
on `[10,20,30,40,50]`.  At `p = 100` the code raises instead of clamping
(see the counterexample). -/
theorem percentile_nearest_rank (data : List ℚ) (p : ℕ)
    (hd : data ≠ []) (hp : p < 100) :
    data.length * p / 100 < data.length ∧
    (∃ s : List ℚ, ∃ v : ℚ, s.Perm data ∧ s.Sorted (· ≤ ·) ∧
      s[data.length * p / 100]? = some v ∧ percentile data p = some v) ∧
    percentile [10, 20, 30, 40, 50] 95 = some 50 ∧
    percentile [10, 20, 30, 40, 50] 50 = some 30 := by
  have hlen : 0 < data.length := List.length_pos.mpr hd
  have hidx : data.length * p / 100 < data.length := by
    rw [Nat.div_lt_iff_lt_mul (by norm_num : 0 < 100)]
    exact mul_lt_mul_of_pos_left hp hlen
  refine ⟨hidx, ?_, by decide, by decide⟩
  have hidx' : data.length * p / 100 < (List.insertionSort (· ≤ ·) data).length := by
    rwa [List.length_insertionSort]
  refine ⟨List.insertionSort (· ≤ ·) data,
    (List.insertionSort (· ≤ ·) data).get ⟨data.length * p / 100, hidx'⟩,
    List.perm_insertionSort _ _, List.sorted_insertionSort _ _, ?_, ?_⟩
  · exact List.getElem?_eq_getElem hidx'
  · unfold percentile
    exact List.getElem?_eq_getElem hidx'

/-- Witness for the amended C2 at the spec's own sample. -/
theorem percentile_nearest_rank_witness :
    ([10, 20, 30, 40, 50] : List ℚ).length * 95 / 100 <
      ([10, 20, 30, 40, 50] : List ℚ).length ∧
    (∃ s : List ℚ, ∃ v : ℚ, s.Perm ([10, 20, 30, 40, 50] : List ℚ) ∧ s.Sorted (· ≤ ·) ∧
      s[([10, 20, 30, 40, 50] : List ℚ).length * 95 / 100]? = some v ∧
      percentile [10, 20, 30, 40, 50] 95 = some v) ∧
    percentile [10, 20, 30, 40, 50] 95 = some 50 ∧
    percentile [10, 20, 30, 40, 50] 50 = some 30 :=
  percentile_nearest_rank [10, 20, 30, 40, 50] 95 (by decide) (by decide)

/-! ### C9: session totals and failure flagging -/

/-- A session is flagged as failed when one of the query results it carries
has `success = false`. -/
def sessionFailed (s : DashboardLoadResult) : Bool :=
  s.query_results.any fun r => !r.success

/-- C9: a session's `total_load_time_ms` is exactly the sum of the
`execution_time_ms` of its constituent `QueryResult` records (every
constituent time is a rounded hundredth, so the outer `round(..., 2)` is the
identity on their sum), failed attempts' measured durations included; and the
session carries a failed child record precisely when one of its three cursor
calls raised. -/
theorem session_total_is_sum_and_flagged (b : ExecBehavior)
    (patient_id : String) :
    (simulate_single_dashboard_load b patient_id).total_load_time_ms =
      ((simulate_single_dashboard_load b patient_id).query_results.map
        fun r => r.execution_time_ms).sum ∧
    (sessionFailed (simulate_single_dashboard_load b patient_id) = true ↔
      ∃ qn ∈ dashboardQueryNames, callFailed (b.outcome qn patient_id) = true) := by
  constructor
  · have hc : ∀ x ∈ ((simulate_single_dashboard_load b patient_id).query_results.map
        fun r => r.execution_time_ms), IsCenti x := by
      intro x hx
      simp only [simulate_single_dashboard_load, List.mem_map] at hx
      obtain ⟨r, hr, rfl⟩ := hx
      obtain ⟨qn, _, rfl⟩ := hr
      rw [execute_query_time]
      exact isCenti_round2 _
    exact round2_eq_self (isCenti_sum hc)
  · simp only [sessionFailed, simulate_single_dashboard_load, List.any_eq_true,
      List.mem_map]
    constructor
    · rintro ⟨x, ⟨qn, hqn, rfl⟩, hx⟩
      refine ⟨qn, hqn, ?_⟩
      rwa [execute_query_success, Bool.not_not] at hx
    · rintro ⟨qn, hqn, hqf⟩
      refine ⟨_, ⟨qn, hqn, rfl⟩, ?_⟩
      rw [execute_query_success, Bool.not_not]
      exact hqf

/-! ### C10: latency statistics are computed over successful results only -/

/-- C10: appending a failed result to a non-empty run changes only the
total-executed and failed counters of the report; the successful count, every
per-query-name statistics block (mean, median, min, max, P95, P99, SLA
fraction and verdict) and the overall block are unchanged, because the report
filters on `success == True` before computing any statistic. -/
theorem report_stats_ignore_failed (rs : List QueryResult) (r : QueryResult)
    (hne : rs ≠ []) (hf : r.success = false) :
    ∃ b b1 : ReportBody, generate_performance_report rs = some b ∧
      generate_performance_report (rs ++ [r]) = some b1 ∧
      b1.total_queries = b.total_queries + 1 ∧
      b1.successful_queries = b.successful_queries ∧
      b1.failed_queries = b.failed_queries + 1 ∧
      b1.per_query = b.per_query ∧
      b1.overall = b.overall := by
  have hfil : (rs ++ [r]).filter (fun x => x.success) =
      rs.filter fun x => x.success := by
    rw [List.filter_append]
    simp [hf]
  have h1 : rs.isEmpty = false := by
    cases rs with
    | nil => exact absurd rfl hne
    | cons a t => rfl
  have h2 : (rs ++ [r]).isEmpty = false := by
    cases rs with
    | nil => exact absurd rfl hne
    | cons a t => rfl
  simp only [generate_performance_report, h1, h2, Bool.false_eq_true, if_false,
    hfil]
  refine ⟨_, _, rfl, rfl, ?_, rfl, ?_, rfl, rfl⟩
  · simp
  · have hle : (rs.filter fun x => x.success).length ≤ rs.length :=
      List.length_filter_le _ _
    simp only [List.length_append, List.length_singleton]
    omega

/-- Witness for C10: one successful record plus one appended failed record. -/
theorem report_stats_ignore_failed_witness :
    ∃ b b1 : ReportBody,
      generate_performance_report
        [{ query_name := "patient_summary", execution_time_ms := 50,
           row_count := 1, success := true, error := none }] = some b ∧
      generate_performance_report
        ([{ query_name := "patient_summary", execution_time_ms := 50,
            row_count := 1, success := true, error := none }] ++
          [{ query_name := "recent_labs", execution_time_ms := 500,
             row_count := 0, success := false, error := some ("timeout") }]) = some b1 ∧
      b1.total_queries = b.total_queries + 1 ∧
      b1.successful_queries = b.successful_queries ∧
      b1.failed_queries = b.failed_queries + 1 ∧
      b1.per_query = b.per_query ∧
      b1.overall = b.overall :=
  report_stats_ignore_failed
    [{ query_name := "patient_summary", execution_time_ms := 50,
       row_count := 1, success := true, error := none }]
    { query_name := "recent_labs", execution_time_ms := 500,
      row_count := 0, success := false, error := some ("timeout") }
    (by simp) rfl

/-! ### C4: the concurrent run produces exactly W x I sessions -/

theorem flatMap_slices_eq_take (ids : List String) (W : ℕ) :
    ∀ I : ℕ, W * I ≤ ids.length →
      ((List.range I).flatMap fun it => (ids.drop (it * W)).take W) =
        ids.take (W * I) := by
  intro I
  induction I with
  | zero => simp
  | succ n ih =>
    intro h
    have hn : W * n ≤ ids.length :=
      le_trans (Nat.mul_le_mul_left W (Nat.le_succ n)) h
    rw [List.range_succ, List.flatMap_append, ih hn, List.flatMap_singleton,
      Nat.mul_succ, List.take_add, mul_comm n W]

theorem single_load_patient_id (b : ExecBehavior) (x : String) :
    (simulate_single_dashboard_load b x).patient_id = x := rfl

theorem single_load_three_queries (b : ExecBehavior) (x : String) :
    (simulate_single_dashboard_load b x).query_results.length = 3 := rfl

/-- C4: when the patient-id source yields at least `W * I` ids, the concurrent
run returns exactly `W * I` session results whose ids are exactly the first
`W * I` patient ids in order (hence no lost and, for distinct ids, no
duplicated sessions), and appends exactly `W * I * 3` `QueryResult` records to
the shared collection (each session issues 3 queries). -/
theorem concurrent_run_counts (b : ExecBehavior) (patient_ids : List String)
    (W I : ℕ) (h : W * I ≤ patient_ids.length) :
    (simulate_concurrent_dashboards b patient_ids W I).1.length = W * I ∧
    (simulate_concurrent_dashboards b patient_ids W I).2.length = W * I * 3 ∧
    ((simulate_concurrent_dashboards b patient_ids W I).1.map
      fun s => s.patient_id) = patient_ids.take (W * I) ∧
    (patient_ids.Nodup →
      ((simulate_concurrent_dashboards b patient_ids W I).1.map
        fun s => s.patient_id).Nodup) := by
  have htl : (patient_ids.take (W * I)).length = W * I := by
    rw [List.length_take]
    exact min_eq_left h
  have hall : (simulate_concurrent_dashboards b patient_ids W I).1 =
      (patient_ids.take (W * I)).map (simulate_single_dashboard_load b) := by
    show ((List.range I).flatMap fun it =>
        ((patient_ids.drop (it * W)).take W).map
          (simulate_single_dashboard_load b)) = _
    rw [← List.map_flatMap, flatMap_slices_eq_take patient_ids W I h]
  have hmap : ((simulate_concurrent_dashboards b patient_ids W I).1.map
      fun s => s.patient_id) = patient_ids.take (W * I) := by
    rw [hall, List.map_map]
    exact List.map_id'' (fun x => rfl) _
  refine ⟨?_, ?_, hmap, ?_⟩
  · rw [hall, List.length_map, htl]
  · show ((simulate_concurrent_dashboards b patient_ids W I).1.flatMap
        fun s => s.query_results).length = W * I * 3
    rw [List.length_flatMap, hall, List.map_map]
    have : ((Function.comp (fun s : DashboardLoadResult => s.query_results.length)
        (simulate_single_dashboard_load b))) = Function.const String 3 := by
      funext x
      exact single_load_three_queries b x
    rw [show (List.length ∘ fun s : DashboardLoadResult => s.query_results) ∘
        simulate_single_dashboard_load b = Function.const String 3 from by
      funext x
      exact single_load_three_queries b x]
    rw [List.map_const, List.sum_replicate, htl, smul_eq_mul]
  · intro hnd
    rw [hmap]
    exact (List.take_sublist _ _).nodup hnd

/-- A stub execution collaborator: every call succeeds instantly with no
rows. -/
def stubBehavior : ExecBehavior :=
  { outcome := fun _ _ => Except.ok []
    startTime := fun _ _ => 0
    endTime := fun _ _ => 0 }

/-- Witness for C4 with width 2, 2 iterations and 4 distinct patient ids. -/
theorem concurrent_run_counts_witness :
    (simulate_concurrent_dashboards stubBehavior ["p1", "p2", "p3", "p4"] 2 2).1.length
        = 2 * 2 ∧
      (simulate_concurrent_dashboards stubBehavior ["p1", "p2", "p3", "p4"] 2 2).2.length
        = 2 * 2 * 3 ∧
      ((simulate_concurrent_dashboards stubBehavior ["p1", "p2", "p3", "p4"] 2 2).1.map
        fun s => s.patient_id) = (["p1", "p2", "p3", "p4"]).take (2 * 2) ∧
      ((["p1", "p2", "p3", "p4"] : List String).Nodup →
        ((simulate_concurrent_dashboards stubBehavior ["p1", "p2", "p3", "p4"] 2 2).1.map
          fun s => s.patient_id).Nodup) :=
  concurrent_run_counts stubBehavior ["p1", "p2", "p3", "p4"] 2 2 (by decide)

/-! ### C6: the SLA verdicts -/

theorem mem_uniqueFirstAux (l : List String) :
    ∀ seen x, x ∈ uniqueFirstAux seen l ↔ x ∈ l ∧ x ∉ seen := by
  induction l with
  | nil => intro seen x; simp [uniqueFirstAux]
  | cons a t ih =>
    intro seen x
    by_cases ha : a ∈ seen
    · rw [uniqueFirstAux, if_pos ha, ih]
      constructor
      · rintro ⟨hx, hns⟩
        exact ⟨List.mem_cons_of_mem a hx, hns⟩
      · rintro ⟨hx, hns⟩
        rcases List.mem_cons.mp hx with rfl | hx
        · exact absurd ha hns
        · exact ⟨hx, hns⟩
    · rw [uniqueFirstAux, if_neg ha]
      constructor
      · intro hx
        rcases List.mem_cons.mp hx with rfl | hx
        · exact ⟨List.mem_cons_self _ _, ha⟩
        · obtain ⟨h1, h2⟩ := (ih (a :: seen) x).mp hx
          refine ⟨List.mem_cons_of_mem a h1, fun hc => h2 (List.mem_cons_of_mem a hc)⟩
      · rintro ⟨hx, hns⟩
        rcases List.mem_cons.mp hx with rfl | hx
        · exact List.mem_cons_self _ _
        · by_cases hxa : x = a
          · subst hxa; exact List.mem_cons_self _ _
          · exact List.mem_cons_of_mem a ((ih (a :: seen) x).mpr
              ⟨hx, by simp [hxa, hns]⟩)

theorem mem_uniqueFirst (l : List String) (x : String) :
    x ∈ uniqueFirst l ↔ x ∈ l := by
  rw [uniqueFirst, mem_uniqueFirstAux]
  simp

theorem groupTimes_ne_nil (successful : List QueryResult) (n : String)
    (h : n ∈ successful.map fun r => r.query_name) : groupTimes successful n ≠ [] := by
  obtain ⟨r, hr, rfl⟩ := List.mem_map.mp h
  have : r ∈ successful.filter fun x => x.query_name == r.query_name :=
    List.mem_filter.mpr ⟨hr, by simp⟩
  intro hc
  have := List.mem_map_of_mem (fun x : QueryResult => x.execution_time_ms) this
  rw [groupTimes] at hc
  rw [hc] at this
  exact absurd this (List.not_mem_nil _)

theorem slaMet_iff (times : List ℚ) (h : times ≠ []) :
    (decide (pctUnder100 times ≥ 95) = true) ↔
      95 * times.length ≤ 100 * countUnder100 times := by
  rw [decide_eq_true_iff]
  have hl : (0 : ℚ) < (times.length : ℚ) := by
    exact_mod_cast List.length_pos.mpr h
  unfold pctUnder100
  rw [ge_iff_le, div_mul_eq_mul_div, le_div_iff₀ hl]
  constructor
  · intro hx
    have hq : ((95 * times.length : ℕ) : ℚ) ≤ ((100 * countUnder100 times : ℕ) : ℚ) := by
      push_cast
      linarith
    exact_mod_cast hq
  · intro hx
    have hq : ((95 * times.length : ℕ) : ℚ) ≤ ((100 * countUnder100 times : ℕ) : ℚ) := by
      exact_mod_cast hx
    push_cast at hq
    linarith

/-- The spec's 20-sample SLA check: 19 samples at 50 ms, one at 500 ms. -/
def sample20 : List QueryResult :=
  (List.replicate 19 (50 : ℚ) ++ [500]).map fun t =>
    { query_name := "patient_summary", execution_time_ms := t,
      row_count := 0, success := true, error := none }

/-- Full evaluation of the report on the 20-sample example: one per-query
block (for `patient_summary`) with fraction exactly 95.0 and verdict `met`,
and an overall block with the same fraction and verdict.  The rational
division inside `pctUnder100` is evaluated by `norm_num`; everything
division-free is evaluated by `decide`. -/
theorem sample20_sla_eval :
    ((generate_performance_report sample20).map fun body =>
        body.per_query.map fun qs => (qs.pct_under_100ms, qs.sla_met)) =
      some [((95 : ℚ), true)] ∧
    ((generate_performance_report sample20).map fun body =>
        body.overall.map fun ov => (ov.pct_under_100ms, ov.sla_met)) =
      some (some ((95 : ℚ), true)) := by
  have hempty : sample20.isEmpty = false := by decide
  have hfil : (sample20.filter fun r => r.success) = sample20 := by decide
  have hnames : uniqueFirst (sample20.map fun r => r.query_name) =
      [("patient_summary")] := by decide
  have hg : groupTimes sample20 ("patient_summary") =
      List.replicate 19 (50 : ℚ) ++ [500] := by decide
  have hall : (sample20.map fun r => r.execution_time_ms) =
      List.replicate 19 (50 : ℚ) ++ [500] := by decide
  have hlen : 0 < sample20.length := by decide
  have hcount : countUnder100 (List.replicate 19 (50 : ℚ) ++ [500]) = 19 := by
    decide
  have hlen2 : (List.replicate 19 (50 : ℚ) ++ [500]).length = 20 := by decide
  have hpct : pctUnder100 (List.replicate 19 (50 : ℚ) ++ [500]) = 95 := by
    unfold pctUnder100
    rw [hcount, hlen2]
    norm_num
  have hdec : decide ((95 : ℚ) ≥ 95) = true := by decide
  simp only [generate_performance_report, hempty, Bool.false_eq_true, if_false,
    hfil, hnames, hg, hall, if_pos hlen, List.map_cons, List.map_nil, statsFor,
    hpct, hdec, Option.map_some']
  exact ⟨trivial, trivial⟩

/-- C6: the SLA verdict is `met` exactly when at least 95% of the relevant
latency samples are strictly below 100 ms — stated as the division-free
condition `95 * count ≤ 100 * count_under` — for the per-query-name blocks
and for the overall block alike; a non-empty run surfaces both kinds of
verdict (an overall block, and a per-name block for every successful query's
name); and on the spec's 20-sample example (19 under 100 ms, one at 500 ms)
the fraction is exactly 95.0% and the verdict is `met` in both blocks. -/
theorem sla_verdicts (query_name : String) (times : List ℚ) (ht : times ≠ [])
    (results : List QueryResult)
    (hs : results.filter (fun r => r.success) ≠ []) :
    ((statsFor query_name times).sla_met = true ↔
      95 * times.length ≤ 100 * countUnder100 times) ∧
    (∃ body : ReportBody, generate_performance_report results = some body ∧
      body.overall.isSome = true ∧
      (∀ qs ∈ body.per_query,
        qs.sla_met = true ↔
          95 * (groupTimes (results.filter fun r => r.success) qs.query_name).length ≤
            100 * countUnder100 (groupTimes (results.filter fun r => r.success) qs.query_name)) ∧
      (∀ ov : OverallStats, body.overall = some ov →
        (ov.sla_met = true ↔
          95 * (results.filter fun r => r.success).length ≤
            100 * countUnder100 ((results.filter fun r => r.success).map
              fun r => r.execution_time_ms))) ∧
      (∀ r ∈ results, r.success = true →
        ∃ qs ∈ body.per_query, qs.query_name = r.query_name)) ∧
    ((generate_performance_report sample20).map fun body =>
        body.per_query.map fun qs => (qs.pct_under_100ms, qs.sla_met)) =
      some [((95 : ℚ), true)] ∧
    ((generate_performance_report sample20).map fun body =>
        body.overall.map fun ov => (ov.pct_under_100ms, ov.sla_met)) =
      some (some ((95 : ℚ), true)) := by
  refine ⟨slaMet_iff times ht, ?_, sample20_sla_eval.1, sample20_sla_eval.2⟩
  have hne : results ≠ [] := by
    intro h0
    rw [h0] at hs
    exact hs rfl
  have hempty : results.isEmpty = false := by
    cases results with
    | nil => exact absurd rfl hne
    | cons a t => rfl
  have hpos : 0 < (results.filter fun r => r.success).length :=
    List.length_pos.mpr hs
  simp only [generate_performance_report, hempty, Bool.false_eq_true, if_false,
    if_pos hpos]
  refine ⟨_, rfl, rfl, ?_, ?_, ?_⟩
  · intro qs hqs
    obtain ⟨n, hn, rfl⟩ := List.mem_map.mp hqs
    have hgn : groupTimes (results.filter fun r => r.success) n ≠ [] :=
      groupTimes_ne_nil _ n ((mem_uniqueFirst _ n).mp hn)
    exact slaMet_iff _ hgn
  · intro ov hov
    obtain rfl := (Option.some_inj).mp hov
    have hmne : ((results.filter fun r => r.success).map
        fun r => r.execution_time_ms) ≠ [] := by
      intro hc
      apply hs
      have hlen0 := congrArg List.length hc
      rw [List.length_map, List.length_nil] at hlen0
      exact List.length_eq_zero.mp hlen0
    have := slaMet_iff ((results.filter fun r => r.success).map
      fun r => r.execution_time_ms) hmne
    rw [List.length_map] at this
    exact this
  · intro r hr hsucc
    have hrf : r ∈ results.filter fun x => x.success :=
      List.mem_filter.mpr ⟨hr, hsucc⟩
    have hnmem : r.query_name ∈ uniqueFirst ((results.filter fun x => x.success).map
        fun x => x.query_name) :=
      (mem_uniqueFirst _ _).mpr (List.mem_map_of_mem _ hrf)
    exact ⟨_, List.mem_map_of_mem _ hnmem, rfl⟩

/-- Witness for C6: the per-type SLA criterion at a one-sample collection. -/
theorem sla_verdicts_witness :
    (statsFor ("patient_summary") [50]).sla_met = true ↔
      95 * ([(50 : ℚ)]).length ≤ 100 * countUnder100 [50] :=
  (sla_verdicts ("patient_summary") [50] (by decide) sample20 (by decide)).1

/-! ### The synthetic clinical data generator

`synthetic_data_generator.py` seeds `Faker`, `np.random` and `random` at
module init; these seed-determined draws are the stream `rnd`.  `uuid.uuid4`
(used for every generated identifier) reads OS entropy instead, modelled as
the independent stream `ent`.  `datetime.now()` is the parameter `now`
(hours).  One Python draw consumes one stream element; a drawn value is
mapped into the range the call imposes (`randint a b` lands in `[a, b]`,
`random.choice` picks an index below the list length), while the shape of the
distribution (Poisson, weights, uniform density) is abstracted into the
stream. -/

structure Streams where
  rnd : ℕ → ℕ
  rpos : ℕ
  ent : ℕ → ℕ
  epos : ℕ

/-- One draw from the seed-determined stream. -/
def nextR (s : Streams) : ℕ × Streams :=
  (s.rnd s.rpos, { s with rpos := s.rpos + 1 })

/-- One read of OS entropy (`uuid.uuid4`). -/
def nextE (s : Streams) : ℕ × Streams :=
  (s.ent s.epos, { s with epos := s.epos + 1 })

/-- `random.randint(a, b)`: inclusive on both ends. -/
def randint (a b : ℕ) (s : Streams) : ℕ × Streams :=
  let (v, s1) := nextR s
  (a + v % (b - a + 1), s1)

theorem randint_le {a b : ℕ} (h : a ≤ b) (s : Streams) :
    a ≤ (randint a b s).1 ∧ (randint a b s).1 ≤ b := by
  have hv : (randint a b s).1 = a + s.rnd s.rpos % (b - a + 1) := rfl
  have hm : s.rnd s.rpos % (b - a + 1) < b - a + 1 :=
    Nat.mod_lt _ (Nat.succ_pos _)
  rw [hv]
  omega

/-- `np.random.poisson(mean)`: the Poisson variate, abstracted as the raw
stream draw (any natural number; only the clamping applied afterwards by the
code is structural). -/
def poissonDraw (_mean : ℚ) (s : Streams) : ℕ × Streams := nextR s

/-- `random.uniform(a, b)` followed by `round(..., 2)` happens at each use
site; the point drawn in `[a, b]` is determined by one stream draw. -/
def uniformDraw (a b : ℚ) (s : Streams) : ℚ × Streams :=
  let (v, s1) := nextR s
  (a + (b - a) * ((v % 101 : ℕ) : ℚ) / 100, s1)

/-- A row of the patients table (`generate_patients`), Faker-generated text
fields modelled as tagged stream draws. -/
structure Patient where
  patientId : String
  firstName : String
  lastName : String
  dateOfBirth : ℤ
  gender : String
  ssn : String
  email : String
  phone : String
  address : String
  city : String
  state : String
  zipCode : String
  createdAt : ℤ
  updatedAt : ℤ
  deletedAt : Option ℤ
deriving Repr, DecidableEq

/-- One iteration of the loop in
`SyntheticClinicalDataGenerator.generate_patients`: the `PATIENT_ID` comes
from `uuid.uuid4` (entropy stream), the demographics from the seeded Faker /
`random` stream, `CREATED_AT` is `datetime.now() - timedelta(days =
randint(365, 3650))` and `UPDATED_AT` is `datetime.now()`. -/
def generate_patient (now : ℤ) (s : Streams) : Patient × Streams :=
  let (u, s1) := nextE s
  let (fn, s2) := nextR s1
  let (ln, s3) := nextR s2
  let (dob, s4) := nextR s3
  let (g, s5) := nextR s4
  let (sn, s6) := nextR s5
  let (em, s7) := nextR s6
  let (ph, s8) := nextR s7
  let (ad, s9) := nextR s8
  let (ci, s10) := nextR s9
  let (st, s11) := nextR s10
  let (zp, s12) := nextR s11
  let (d, s13) := randint 365 3650 s12
  ({ patientId := "PAT-" ++ toString u
     firstName := "FN" ++ toString fn
     lastName := "LN" ++ toString ln
     dateOfBirth := -(dob : ℤ)
     gender := (["Male", "Female", "Other"]).getD (g % 3) ("")
     ssn := "SSN" ++ toString sn
     email := "EM" ++ toString em
     phone := "PH" ++ toString ph
     address := "AD" ++ toString ad
     city := "CI" ++ toString ci
     state := "ST" ++ toString st
     zipCode := "ZIP" ++ toString zp
     createdAt := now - 24 * (d : ℤ)
     updatedAt := now
     deletedAt := none }, s13)

/-- `SyntheticClinicalDataGenerator.generate_patients`. -/
def generate_patients (num_patients : ℕ) (now : ℤ) (s : Streams) :
    List Patient × Streams :=
  match num_patients with
  | 0 => ([], s)
  | n + 1 =>
    let p := (generate_patient now s).1
    let s1 := (generate_patient now s).2
    ((p :: (generate_patients n now s1).1), (generate_patients n now s1).2)

inductive EncounterType
  | EMERGENCY
  | INPATIENT
  | OUTPATIENT
  | TELEHEALTH
deriving Repr, DecidableEq

/-- `self.encounter_types` (the weights `[0.15, 0.10, 0.60, 0.15]` only shape
the distribution of the weighted draw and are abstracted into the stream). -/
def encounter_types : List EncounterType :=
  [.EMERGENCY, .INPATIENT, .OUTPATIENT, .TELEHEALTH]

/-- The keys of `self.diagnosis_codes`. -/
def diagnosis_codes : List String :=
  ["E11.9", "I10", "J44.9", "E78.5", "J06.9", "M25.50", "R51", "K21.9",
   "E66.9", "F41.9"]

/-- A row of the encounters table (`generate_encounters`). -/
structure Encounter where
  encounterId : String
  patientId : String
  encounterType : EncounterType
  encounterDate : ℤ
  providerId : String
  facilityId : String
  chiefComplaint : String
  diagnosisCode : String
  dischargeDate : Option ℤ
  status : String
  createdAt : ℤ
  updatedAt : ℤ
  deletedAt : Option ℤ
deriving Repr, DecidableEq

/-- One iteration of the inner loop of `generate_encounters`: weighted type
draw, `ENCOUNTER_DATE = CREATED_AT + timedelta(days = randint(0, 730))`, a
length-of-stay discharge only for INPATIENT/EMERGENCY, and a `uuid.uuid4`
encounter id. -/
def generate_encounter (p : Patient) (s : Streams) : Encounter × Streams :=
  let (tv, s1) := nextR s
  let ety := encounter_types.getD (tv % 4) .OUTPATIENT
  let (d, s2) := randint 0 730 s1
  let encounterDate := p.createdAt + 24 * (d : ℤ)
  let ds : Option ℤ × Streams :=
    if ety = .INPATIENT ∨ ety = .EMERGENCY then
      (some (encounterDate + ((randint 2 240 s2).1 : ℤ)), (randint 2 240 s2).2)
    else (none, s2)
  let discharge := ds.1
  let s3 := ds.2
  let (dc, s4) := nextR s3
  let (u, s5) := nextE s4
  let (pv, s6) := randint 1000 9999 s5
  let (fv, s7) := randint 100 999 s6
  let (cc, s8) := nextR s7
  ({ encounterId := "ENC-" ++ toString u
     patientId := p.patientId
     encounterType := ety
     encounterDate := encounterDate
     providerId := "PROV-" ++ toString pv
     facilityId := "FAC-" ++ toString fv
     chiefComplaint := "CC" ++ toString cc
     diagnosisCode := diagnosis_codes.getD (dc % diagnosis_codes.length) ("")
     dischargeDate := discharge
     status := if discharge.isSome then "DISCHARGED" else "ACTIVE"
     createdAt := encounterDate
     updatedAt := discharge.getD encounterDate
     deletedAt := none }, s8)

/-- The inner `for _ in range(num_encounters)` loop of
`generate_encounters`. -/
def encountersLoop (p : Patient) : ℕ → Streams → List Encounter × Streams
  | 0, s => ([], s)
  | k + 1, s =>
    let e := (generate_encounter p s).1
    let s1 := (generate_encounter p s).2
    ((e :: (encountersLoop p k s1).1), (encountersLoop p k s1).2)

/-- `SyntheticClinicalDataGenerator.generate_encounters`: per patient, a
Poisson encounter count clamped to `[1, 20]` (`max(1, min(num, 20))`), then
that many encounters. -/
def generate_encounters (encounters_per_patient_avg : ℚ)
    (patients : List Patient) (s : Streams) : List Encounter × Streams :=
  match patients with
  | [] => ([], s)
  | p :: ps =>
    let draw := (poissonDraw encounters_per_patient_avg s).1
    let s1 := (poissonDraw encounters_per_patient_avg s).2
    let num_encounters := max 1 (min draw 20)
    let es := (encountersLoop p num_encounters s1).1
    let s2 := (encountersLoop p num_encounters s1).2
    ((es ++ (generate_encounters encounters_per_patient_avg ps s2).1),
     (generate_encounters encounters_per_patient_avg ps s2).2)

/-- Reference-range and threshold data of one entry of `self.lab_tests`. -/
structure LabTestInfo where
  unit : String
  normalMin : ℚ
  normalMax : ℚ
  criticalThreshold : ℚ
deriving Repr, DecidableEq

/-- `self.lab_tests`: the fixed eight-test catalog. -/
def lab_tests : List (String × LabTestInfo) :=
  [("HBA1C", ⟨"%", 4, 28 / 5, 9⟩),
   ("GLUCOSE", ⟨"mg/dL", 70, 100, 250⟩),
   ("WBC", ⟨"K/uL", 9 / 2, 11, 20⟩),
   ("HEMOGLOBIN", ⟨"g/dL", 12, 16, 7⟩),
   ("CREATININE", ⟨"mg/dL", 3 / 5, 6 / 5, 3⟩),
   ("ALT", ⟨"U/L", 7, 56, 200⟩),
   ("CHOLESTEROL", ⟨"mg/dL", 125, 200, 300⟩),
   ("TROPONIN", ⟨"ng/mL", 0, 1 / 25, 1⟩)]

/-- `list(self.lab_tests.keys())`. -/
def labTestKeys : List String := lab_tests.map fun t => t.1

/-- A row of the lab-results table (`generate_lab_results`).  The
`REFERENCE_RANGE` f-string is kept as the pair of its two numbers. -/
structure LabResult where
  labResultId : String
  encounterId : String
  patientId : String
  testCode : String
  testName : String
  resultValue : ℚ
  resultUnit : String
  referenceLow : ℚ
  referenceHigh : ℚ
  abnormalFlag : Option String
  testDate : ℤ
  resultDate : ℤ
  providerId : String
  createdAt : ℤ
  updatedAt : ℤ
  deletedAt : Option ℤ
deriving Repr, DecidableEq

/-- `random.sample(pool, k)`: `k` picks without replacement — each pick
removes the chosen element from the pool (empty-pool case unreachable, since
the code passes `k = min(num_labs, len(pool))`). -/
def sampleCodes : List String → ℕ → Streams → List String × Streams
  | _, 0, s => ([], s)
  | pool, k + 1, s =>
    match pool with
    | [] => ([], s)
    | _ :: _ =>
      let v := (nextR s).1
      let s1 := (nextR s).2
      let i := v % pool.length
      ((pool.getD i ("") :: (sampleCodes (pool.eraseIdx i) k s1).1),
       (sampleCodes (pool.eraseIdx i) k s1).2)

/-- The body of the `for test_code in selected_tests` loop: classify the
result (80/15/5 weighted draw, abstracted to a three-way draw), draw the
value in the branch's range and round it to 2 decimals, then stamp
`TEST_DATE = ENCOUNTER_DATE + timedelta(hours = randint(0, 12))` and
`RESULT_DATE = TEST_DATE + timedelta(hours = randint(1, 48))`, with a
`uuid.uuid4` lab-result id. -/
def drawLabValue (info : LabTestInfo) (rt : ℕ) (s1 : Streams) :
    ℚ × Option String × Streams :=
  if rt % 3 = 0 then
    let (v, s') := uniformDraw info.normalMin info.normalMax s1
    (v, (none : Option String), s')
  else if rt % 3 = 1 then
    let (c, s') := nextR s1
    if c % 2 = 0 then
      let (v, s'') := uniformDraw info.normalMax (info.normalMax * (3 / 2)) s'
      (v, some ("HIGH"), s'')
    else
      let (v, s'') := uniformDraw (info.normalMin / 2) info.normalMin s'
      (v, some ("LOW"), s'')
  else
    let (v, s') := uniformDraw (info.normalMax * (3 / 2))
      info.criticalThreshold s1
    (v, some ("CRITICAL"), s')

def labResultFor (e : Encounter) (test_code : String) (s : Streams) :
    LabResult × Streams :=
  let info := (lab_tests.lookup test_code).getD ⟨"", 0, 0, 0⟩
  let (rt, s1) := nextR s
  let value := (drawLabValue info rt s1).1
  let abnormal_flag := (drawLabValue info rt s1).2.1
  let s2 := (drawLabValue info rt s1).2.2
  let (h1, s3) := randint 0 12 s2
  let testDate := e.encounterDate + (h1 : ℤ)
  let (h2, s4) := randint 1 48 s3
  let resultDate := testDate + (h2 : ℤ)
  let (u, s5) := nextE s4
  ({ labResultId := "LAB-" ++ toString u
     encounterId := e.encounterId
     patientId := e.patientId
     testCode := test_code
     testName := test_code
     resultValue := round2 value
     resultUnit := info.unit
     referenceLow := info.normalMin
     referenceHigh := info.normalMax
     abnormalFlag := abnormal_flag
     testDate := testDate
     resultDate := resultDate
     providerId := e.providerId
     createdAt := resultDate
     updatedAt := resultDate
     deletedAt := none }, s5)

/-- The `for test_code in selected_tests` loop. -/
def labsLoop (e : Encounter) : List String → Streams → List LabResult × Streams
  | [], s => ([], s)
  | c :: cs, s =>
    let l := (labResultFor e c s).1
    let s1 := (labResultFor e c s).2
    ((l :: (labsLoop e cs s1).1), (labsLoop e cs s1).2)

/-- The per-encounter body of `generate_lab_results`: TELEHEALTH encounters
are skipped (`continue`); otherwise the lab count is the Poisson draw clamped
to `[1, 10]` and the test codes are `random.sample(keys, min(num_labs,
len(keys)))`. -/
def labsForEncounter (labs_per_encounter_avg : ℚ) (e : Encounter)
    (s : Streams) : List LabResult × Streams :=
  if e.encounterType ∉ [EncounterType.EMERGENCY, .INPATIENT, .OUTPATIENT] then
    ([], s)
  else
    let draw := (poissonDraw labs_per_encounter_avg s).1
    let s1 := (poissonDraw labs_per_encounter_avg s).2
    let num_labs := max 1 (min draw 10)
    let selected_tests :=
      (sampleCodes labTestKeys (min num_labs labTestKeys.length) s1).1
    let s2 := (sampleCodes labTestKeys (min num_labs labTestKeys.length) s1).2
    labsLoop e selected_tests s2

/-- `SyntheticClinicalDataGenerator.generate_lab_results`. -/
def generate_lab_results (labs_per_encounter_avg : ℚ)
    (encounters : List Encounter) (s : Streams) : List LabResult × Streams :=
  match encounters with
  | [] => ([], s)
  | e :: es =>
    let ls := (labsForEncounter labs_per_encounter_avg e s).1
    let s1 := (labsForEncounter labs_per_encounter_avg e s).2
    ((ls ++ (generate_lab_results labs_per_encounter_avg es s1).1),
     (generate_lab_results labs_per_encounter_avg es s1).2)

/-- `SyntheticClinicalDataGenerator.generate_all`: patients, then encounters,
then lab results (the script calls it with averages 5 and 3; they are kept as
parameters). -/
def generate_all (num_patients : ℕ) (now : ℤ)
    (encounters_per_patient_avg labs_per_encounter_avg : ℚ) (s : Streams) :
    List Patient × List Encounter × List LabResult :=
  let ps := (generate_patients num_patients now s).1
  let s1 := (generate_patients num_patients now s).2
  let es := (generate_encounters encounters_per_patient_avg ps s1).1
  let s2 := (generate_encounters encounters_per_patient_avg ps s1).2
  (ps, es, (generate_lab_results labs_per_encounter_avg es s2).1)

/-! ### C1: determinism under a fixed seed -/

/-- The state of the generators after the module-level seeding
(`Faker.seed(42)`, `np.random.seed(42)`, `random.seed(42)`): the seeded
stream is fixed (any fixed function stands for the seed-determined draw
sequence), while the OS entropy behind `uuid.uuid4` varies from run to
run. -/
def seededStream (entropy : ℕ → ℕ) : Streams :=
  { rnd := fun k => k, rpos := 0, ent := entropy, epos := 0 }

/-- C1 (code bug): the generated tables are not a function of the seed.  Two
runs with the identical seeded stream but different OS entropy (as two real
executions have, since `uuid.uuid4` ignores the seeded generators) produce
different patient tables already at `N = 1`: the `PATIENT_ID` values
differ. -/
theorem generate_patients_entropy_dependence :
    ((generate_patients 1 0 (seededStream fun _ => 0)).1.map
      fun p => p.patientId) = ["PAT-0"] ∧
    ((generate_patients 1 0 (seededStream fun _ => 1)).1.map
      fun p => p.patientId) = ["PAT-1"] ∧
    (generate_patients 1 0 (seededStream fun _ => 0)).1 ≠
      (generate_patients 1 0 (seededStream fun _ => 1)).1 :=
  ⟨by decide, by decide, by decide⟩

/-! ### C5: relational and temporal invariants of the generated dataset -/

/-- The relational/temporal invariant of one encounter against the patient
table it was generated from: its `PATIENT_ID` resolves to a generated
patient created no later than the encounter, and any `DISCHARGE_DATE` is no
earlier than the `ENCOUNTER_DATE`. -/
def EncounterInv (ps : List Patient) (e : Encounter) : Prop :=
  (∃ p, p ∈ ps ∧ e.patientId = p.patientId ∧ p.createdAt ≤ e.encounterDate) ∧
  e.encounterDate ≤ e.dischargeDate.getD e.encounterDate

/-- The relational/temporal invariant of one lab result against the
encounter table it was generated from: its `ENCOUNTER_ID` and `PATIENT_ID`
resolve to a generated encounter dated no later than the test, and the
`RESULT_DATE` is no earlier than the `TEST_DATE`. -/
def LabInv (es : List Encounter) (l : LabResult) : Prop :=
  (∃ e, e ∈ es ∧ l.encounterId = e.encounterId ∧ l.patientId = e.patientId ∧
    e.encounterDate ≤ l.testDate) ∧
  l.testDate ≤ l.resultDate

theorem generate_encounter_patientId (p : Patient) (s : Streams) :
    (generate_encounter p s).1.patientId = p.patientId := rfl

theorem generate_encounter_date_ge (p : Patient) (s : Streams) :
    p.createdAt ≤ (generate_encounter p s).1.encounterDate := by
  have h : (generate_encounter p s).1.encounterDate =
      p.createdAt + 24 * (((randint 0 730 ((nextR s).2)).1 : ℕ) : ℤ) := rfl
  rw [h]
  have : (0 : ℤ) ≤ 24 * (((randint 0 730 ((nextR s).2)).1 : ℕ) : ℤ) := by
    positivity
  omega

theorem generate_encounter_discharge_ge (p : Patient) (s : Streams) :
    (generate_encounter p s).1.encounterDate ≤
      (generate_encounter p s).1.dischargeDate.getD
        (generate_encounter p s).1.encounterDate := by
  simp only [generate_encounter]
  split
  · have : (0 : ℤ) ≤
        ((((randint 2 240 (randint 0 730 ((nextR s).2)).2).1 : ℕ)) : ℤ) :=
      Int.ofNat_nonneg _
    simp only [Option.getD_some]
    omega
  · exact le_refl _

theorem encountersLoop_inv (p : Patient) :
    ∀ (k : ℕ) (s : Streams), ∀ e ∈ (encountersLoop p k s).1,
      e.patientId = p.patientId ∧ p.createdAt ≤ e.encounterDate ∧
        e.encounterDate ≤ e.dischargeDate.getD e.encounterDate := by
  intro k
  induction k with
  | zero => intro s e he; exact absurd he (List.not_mem_nil e)
  | succ n ih =>
    intro s e he
    rcases List.mem_cons.mp he with rfl | he2
    · exact ⟨generate_encounter_patientId p s, generate_encounter_date_ge p s,
        generate_encounter_discharge_ge p s⟩
    · exact ih _ e he2

theorem generate_encounters_inv (avg : ℚ) :
    ∀ (ps : List Patient) (s : Streams),
      ∀ e ∈ (generate_encounters avg ps s).1,
        ∃ p, p ∈ ps ∧ e.patientId = p.patientId ∧
          p.createdAt ≤ e.encounterDate ∧
          e.encounterDate ≤ e.dischargeDate.getD e.encounterDate := by
  intro ps
  induction ps with
  | nil => intro s e he; exact absurd he (List.not_mem_nil e)
  | cons p rest ih =>
    intro s e he
    rcases List.mem_append.mp he with h1 | h2
    · obtain ⟨h1', h2', h3'⟩ := encountersLoop_inv p _ _ e h1
      exact ⟨p, List.mem_cons_self _ _, h1', h2', h3'⟩
    · obtain ⟨q, hq, hrest⟩ := ih _ e h2
      exact ⟨q, List.mem_cons_of_mem _ hq, hrest⟩

theorem labResultFor_fields (e : Encounter) (c : String) (s : Streams) :
    (labResultFor e c s).1.encounterId = e.encounterId ∧
    (labResultFor e c s).1.patientId = e.patientId ∧
    (labResultFor e c s).1.testCode = c := ⟨rfl, rfl, rfl⟩

theorem labResultFor_dates (e : Encounter) (c : String) (s : Streams) :
    e.encounterDate ≤ (labResultFor e c s).1.testDate ∧
    (labResultFor e c s).1.testDate ≤ (labResultFor e c s).1.resultDate := by
  constructor
  · have h : (labResultFor e c s).1.testDate =
        e.encounterDate + (((randint 0 12
          (drawLabValue ((lab_tests.lookup c).getD ⟨"", 0, 0, 0⟩)
            ((nextR s).1) ((nextR s).2)).2.2).1 : ℕ) : ℤ) := rfl
    rw [h]
    have : (0 : ℤ) ≤ (((randint 0 12
        (drawLabValue ((lab_tests.lookup c).getD ⟨"", 0, 0, 0⟩)
          ((nextR s).1) ((nextR s).2)).2.2).1 : ℕ) : ℤ) := Int.ofNat_nonneg _
    omega
  · have h : (labResultFor e c s).1.resultDate =
        (labResultFor e c s).1.testDate + (((randint 1 48
          (randint 0 12
            (drawLabValue ((lab_tests.lookup c).getD ⟨"", 0, 0, 0⟩)
              ((nextR s).1) ((nextR s).2)).2.2).2).1 : ℕ) : ℤ) := rfl
    rw [h]
    have : (0 : ℤ) ≤ (((randint 1 48
        (randint 0 12
          (drawLabValue ((lab_tests.lookup c).getD ⟨"", 0, 0, 0⟩)
            ((nextR s).1) ((nextR s).2)).2.2).2).1 : ℕ) : ℤ) :=
      Int.ofNat_nonneg _
    omega

theorem labsLoop_inv (e : Encounter) :
    ∀ (cs : List String) (s : Streams), ∀ l ∈ (labsLoop e cs s).1,
      l.encounterId = e.encounterId ∧ l.patientId = e.patientId ∧
        e.encounterDate ≤ l.testDate ∧ l.testDate ≤ l.resultDate := by
  intro cs
  induction cs with
  | nil => intro s l hl; exact absurd hl (List.not_mem_nil l)
  | cons c rest ih =>
    intro s l hl
    rcases List.mem_cons.mp hl with rfl | hl2
    · obtain ⟨h1, h2, _⟩ := labResultFor_fields e c s
      obtain ⟨h4, h5⟩ := labResultFor_dates e c s
      exact ⟨h1, h2, h4, h5⟩
    · exact ih _ l hl2

theorem labsLoop_testCodes (e : Encounter) :
    ∀ (cs : List String) (s : Streams),
      ((labsLoop e cs s).1.map fun l => l.testCode) = cs := by
  intro cs
  induction cs with
  | nil => intro s; rfl
  | cons c rest ih =>
    intro s
    show ((labResultFor e c s).1.testCode :: _) = c :: rest
    rw [(labResultFor_fields e c s).2.2, ih]

theorem labsForEncounter_inv (avg : ℚ) (e : Encounter) (s : Streams) :
    ∀ l ∈ (labsForEncounter avg e s).1,
      l.encounterId = e.encounterId ∧ l.patientId = e.patientId ∧
        e.encounterDate ≤ l.testDate ∧ l.testDate ≤ l.resultDate := by
  intro l hl
  unfold labsForEncounter at hl
  by_cases hty : e.encounterType ∉
      [EncounterType.EMERGENCY, .INPATIENT, .OUTPATIENT]
  · rw [if_pos hty] at hl
    exact absurd hl (List.not_mem_nil l)
  · rw [if_neg hty] at hl
    exact labsLoop_inv e _ _ l hl

theorem generate_lab_results_inv (avg : ℚ) :
    ∀ (es : List Encounter) (s : Streams),
      ∀ l ∈ (generate_lab_results avg es s).1,
        ∃ e, e ∈ es ∧ l.encounterId = e.encounterId ∧
          l.patientId = e.patientId ∧
          e.encounterDate ≤ l.testDate ∧ l.testDate ≤ l.resultDate := by
  intro es
  induction es with
  | nil => intro s l hl; exact absurd hl (List.not_mem_nil l)
  | cons e rest ih =>
    intro s l hl
    rcases List.mem_append.mp hl with h1 | h2
    · obtain ⟨a, b, c, d⟩ := labsForEncounter_inv avg e s l h1
      exact ⟨e, List.mem_cons_self _ _, a, b, c, d⟩
    · obtain ⟨q, hq, hrest⟩ := ih _ l h2
      exact ⟨q, List.mem_cons_of_mem _ hq, hrest⟩

/-- C5: every dataset the generator can produce satisfies the relational and
temporal invariants: each encounter's `PATIENT_ID` is a generated patient's
id with `CREATED_AT ≤ ENCOUNTER_DATE` and `DISCHARGE_DATE ≥ ENCOUNTER_DATE`
when present; each lab result's `ENCOUNTER_ID`/`PATIENT_ID` are a generated
encounter's with `ENCOUNTER_DATE ≤ TEST_DATE ≤ RESULT_DATE`. -/
theorem generated_invariants (num_patients : ℕ) (now : ℤ)
    (eAvg lAvg : ℚ) (s : Streams) :
    ((generate_all num_patients now eAvg lAvg s).2.1.Forall
      (EncounterInv (generate_all num_patients now eAvg lAvg s).1)) ∧
    ((generate_all num_patients now eAvg lAvg s).2.2.Forall
      (LabInv (generate_all num_patients now eAvg lAvg s).2.1)) := by
  constructor
  · rw [List.forall_iff_forall_mem]
    intro e he
    obtain ⟨p, hp, h1, h2, h3⟩ := generate_encounters_inv eAvg _ _ e he
    exact ⟨⟨p, hp, h1, h2⟩, h3⟩
  · rw [List.forall_iff_forall_mem]
    intro l hl
    obtain ⟨e, hel, h1, h2, h3, h4⟩ := generate_lab_results_inv lAvg _ _ l hl
    exact ⟨⟨e, hel, h1, h2, h3⟩, h4⟩

/-! ### C8: which encounters get lab results, and how many -/

theorem labsLoop_length (e : Encounter) (cs : List String) (s : Streams) :
    (labsLoop e cs s).1.length = cs.length := by
  have h := congrArg List.length (labsLoop_testCodes e cs s)
  rwa [List.length_map] at h

theorem sampleCodes_length :
    ∀ (k : ℕ) (pool : List String) (s : Streams),
      (sampleCodes pool k s).1.length = min k pool.length := by
  intro k
  induction k with
  | zero => intro pool s; simp [sampleCodes]
  | succ n ih =>
    intro pool s
    match pool with
    | [] => simp [sampleCodes]
    | a :: t =>
      show ((a :: t).getD _ ("") ::
        (sampleCodes ((a :: t).eraseIdx ((nextR s).1 % (a :: t).length)) n
          ((nextR s).2)).1).length = _
      rw [List.length_cons, ih]
      have hi : (nextR s).1 % (a :: t).length < (a :: t).length :=
        Nat.mod_lt _ (by simp)
      rw [List.length_eraseIdx, if_pos hi]
      simp only [List.length_cons]
      omega

theorem sampleCodes_subset :
    ∀ (k : ℕ) (pool : List String) (s : Streams),
      ∀ x ∈ (sampleCodes pool k s).1, x ∈ pool := by
  intro k
  induction k with
  | zero => intro pool s x hx; exact absurd hx (List.not_mem_nil x)
  | succ n ih =>
    intro pool s x hx
    match pool with
    | [] => exact absurd hx (List.not_mem_nil x)
    | a :: t =>
      rcases List.mem_cons.mp hx with rfl | hx2
      · have hi : (nextR s).1 % (a :: t).length < (a :: t).length :=
          Nat.mod_lt _ (by simp)
        rw [List.getD_eq_getElem _ _ hi]
        exact List.getElem_mem hi
      · exact (List.eraseIdx_sublist (a :: t) _).subset (ih _ _ x hx2)

theorem sampleCodes_pick_fresh {l : List String} (hnd : l.Nodup) {i : ℕ}
    (hi : i < l.length) (hmem : l[i] ∈ l.eraseIdx i) : False := by
  obtain ⟨j, hj, hne, heq⟩ := List.mem_eraseIdx_iff_getElem.mp hmem
  exact hne (hnd.getElem_inj_iff.mp heq)

theorem sampleCodes_nodup :
    ∀ (k : ℕ) (pool : List String) (s : Streams), pool.Nodup →
      (sampleCodes pool k s).1.Nodup := by
  intro k
  induction k with
  | zero => intro pool s hnd; exact List.nodup_nil
  | succ n ih =>
    intro pool s hnd
    match pool with
    | [] => exact List.nodup_nil
    | a :: t =>
      have hi : (nextR s).1 % (a :: t).length < (a :: t).length :=
        Nat.mod_lt _ (by simp)
      show ((a :: t).getD _ ("") ::
        (sampleCodes ((a :: t).eraseIdx ((nextR s).1 % (a :: t).length)) n
          ((nextR s).2)).1).Nodup
      rw [List.nodup_cons]
      constructor
      · rw [List.getD_eq_getElem _ _ hi]
        intro hmem
        exact sampleCodes_pick_fresh hnd hi (sampleCodes_subset n _ _ _ hmem)
      · exact ih _ _ ((List.eraseIdx_sublist _ _).nodup hnd)

theorem labTestKeys_nodup : labTestKeys.Nodup := by decide

/-- C8 (amended): a TELEHEALTH encounter is skipped and yields no lab
results; for any other encounter type the number of lab results is the
Poisson draw clamped to `[1, 10]` *and further capped by the catalog size 8*
(`min(num_labs, len(lab_tests))` before `random.sample`), and the test codes
are sampled without replacement from the fixed catalog, hence pairwise
distinct and all drawn from it. -/
theorem labs_only_for_qualifying (lAvg : ℚ) (e : Encounter) (s : Streams) :
    if e.encounterType = .TELEHEALTH then (labsForEncounter lAvg e s).1 = []
    else
      (labsForEncounter lAvg e s).1.length =
        min (max 1 (min (s.rnd s.rpos) 10)) 8 ∧
      ((labsForEncounter lAvg e s).1.map fun l => l.testCode).Nodup ∧
      ((labsForEncounter lAvg e s).1.Forall fun l =>
        l.testCode ∈ labTestKeys) := by
  by_cases hty : e.encounterType = .TELEHEALTH
  · rw [if_pos hty]
    unfold labsForEncounter
    rw [hty]
    rfl
  · rw [if_neg hty]
    have hin : ¬ (e.encounterType ∉
        [EncounterType.EMERGENCY, .INPATIENT, .OUTPATIENT]) := by
      cases htype : e.encounterType <;> simp_all
    have hbody : (labsForEncounter lAvg e s).1 =
        (labsLoop e ((sampleCodes labTestKeys
          (min (max 1 (min (s.rnd s.rpos) 10)) labTestKeys.length)
          ((nextR s).2)).1) ((sampleCodes labTestKeys
          (min (max 1 (min (s.rnd s.rpos) 10)) labTestKeys.length)
          ((nextR s).2)).2)).1 := by
      unfold labsForEncounter
      rw [if_neg hin]
      rfl
    refine ⟨?_, ?_, ?_⟩
    · rw [hbody, labsLoop_length, sampleCodes_length]
      show min (min _ 8) 8 = _
      omega
    · rw [hbody, labsLoop_testCodes]
      exact sampleCodes_nodup _ _ _ labTestKeys_nodup
    · rw [List.forall_iff_forall_mem]
      intro l hl
      rw [hbody] at hl
      have hmap : l.testCode ∈ ((labsLoop e _ _).1.map fun x => x.testCode) :=
        List.mem_map_of_mem _ hl
      rw [labsLoop_testCodes] at hmap
      exact sampleCodes_subset _ _ _ _ hmap

/-- A stream whose seeded draws are all 10: the Poisson variate for the
first encounter is 10. -/
def cexStream : Streams :=
  { rnd := fun _ => 10, rpos := 0, ent := fun _ => 0, epos := 0 }

/-- An EMERGENCY encounter (qualifying for lab generation). -/
def cexEncounter : Encounter :=
  { encounterId := "ENC-X", patientId := "PAT-X",
    encounterType := .EMERGENCY, encounterDate := 0,
    providerId := "PROV-1", facilityId := "FAC-1", chiefComplaint := "CC",
    diagnosisCode := "R51", dischargeDate := some 10, status := "DISCHARGED",
    createdAt := 0, updatedAt := 10, deletedAt := none }

/-- C8 counterexample: for an EMERGENCY encounter whose Poisson draw is 10,
the clamp to `[1, 10]` gives 10, but only 8 lab results are generated — the
catalog has 8 tests and `random.sample` is called with
`min(num_labs, len(lab_tests))`. -/
theorem poisson_clamp_capped_counterexample :
    cexEncounter.encounterType = .EMERGENCY ∧
    max 1 (min (cexStream.rnd cexStream.rpos) 10) = 10 ∧
    (labsForEncounter 3 cexEncounter cexStream).1.length = 8 ∧
    (8 : ℕ) ≠ 10 :=
  ⟨rfl, by decide, rfl, by decide⟩
